import Mathlib

/-!
Verification of the storage-gateway core: a shallow embedding of the
permission guards, upload-commit capacity check, WebDAV PUT/MKCOL handlers,
and the S3 file operations (stat, rename, update), with theorems settling
the specification claims about them.
-/

set_option maxRecDepth 4096

/-! ## S3 call and reply model -/

/-- A single outbound call to the object store, as issued by the handlers. -/
inductive S3Call where
  | headObject (key : String)
  | getObjectRange (key : String) (range : String)
  | putObject (key : String) (contentType : String)
  | copyObject (sourceKey : String) (targetKey : String)
  | deleteObject (key : String)
deriving DecidableEq, Repr

/-- Metadata carried by a successful HeadObject / GetObject reply. -/
structure S3ObjectMeta where
  contentType : Option String
  contentLength : Option Int
  etag : Option String
deriving DecidableEq, Repr

/-- Outcome of one S3 request: success with metadata, or an error with an
HTTP status (`error.$metadata.httpStatusCode`) and an error name. -/
inductive S3Reply where
  | ok (meta : S3ObjectMeta)
  | err (status : Nat) (name : String)
deriving DecidableEq, Repr

/-! ## HTTP status constants

Modelled from the spec: the `ApiStatus` constants live in
`src/constants/index.js`, which is not under src/; only their names appear
at the call sites.  Values follow the spec §4.7 error mapping
(`notFound → 404`, `conflict → 409`, `pathForbidden → 403`,
`invalidPath → 400`, `unsupported → 415`, capacity exhaustion → `507`)
and standard HTTP numbering for the remaining conventional names. -/

def ApiStatus.SUCCESS : Nat := 200
def ApiStatus.BAD_REQUEST : Nat := 400
def ApiStatus.UNAUTHORIZED : Nat := 401
def ApiStatus.FORBIDDEN : Nat := 403
def ApiStatus.NOT_FOUND : Nat := 404
def ApiStatus.CONFLICT : Nat := 409
def ApiStatus.INTERNAL_ERROR : Nat := 500

/-! ## Path-permission predicate and route guards -/

/-- Modelled from the spec: `checkPathPermissionForOperation` is imported by
the fs routes from `services/apiKeyService.js`, which is not under src/.
The spec states "∀ principal `k` with `allowedPrefix = A`: every path `p`
accessed satisfies `A ⊑ p`; otherwise request fails with `pathForbidden`",
where `A ⊑ p` is the virtual-path prefix relation. -/
def checkPathPermissionForOperation (basicPath requestPath : String) : Bool :=
  basicPath.data.isPrefixOf requestPath.data

/-- The `userInfo` object set by `unifiedFsAuthMiddleware` in the fs routes:
admins get `hasFullAccess = true`, API-key users carry their key's
`basicPath`. -/
structure UserInfo where
  hasFullAccess : Bool
  basicPath : String
deriving DecidableEq, Repr

/-- `userInfo` for an admin principal (`hasFullAccess: true`). -/
def adminUserInfo : UserInfo := ⟨true, "/"⟩

/-- `userInfo` for an API-key principal with the given `basicPath`. -/
def apiKeyUserInfo (basicPath : String) : UserInfo := ⟨false, basicPath⟩

/-- The route-local `checkPathPermission` helper of the fs routes:
full-access (admin) users always pass; API-key users are checked against
their `basicPath` via `checkPathPermissionForOperation`. -/
def routeCheckPathPermission (userInfo : UserInfo) (path : String) : Bool :=
  if userInfo.hasFullAccess then true
  else checkPathPermissionForOperation userInfo.basicPath path

/-- Result of an fs route handler up to the storage layer: either an error
response is returned (with its HTTP status) before any storage call, or the
handler proceeds to call the service layer on the listed paths. -/
inductive RouteResult where
  | errorResp (status : Nat)
  | callService (paths : List String)
deriving DecidableEq, Repr

/-- `POST /api/fs/mkdir`: missing path → 400; failed path-permission check →
403; otherwise `createDirectory` is called. -/
def handleMkdirRoute (userInfo : UserInfo) (path : Option String) : RouteResult :=
  match path with
  | none => .errorResp ApiStatus.BAD_REQUEST
  | some p =>
    if ¬ routeCheckPathPermission userInfo p then .errorResp ApiStatus.FORBIDDEN
    else .callService [p]

/-- `POST /api/fs/upload`: missing file or path → 400; failed path-permission
check → 403; otherwise `uploadFile` is called. -/
def handleUploadRoute (userInfo : UserInfo) (hasFile : Bool) (path : Option String) : RouteResult :=
  match path with
  | none => .errorResp ApiStatus.BAD_REQUEST
  | some p =>
    if ¬ hasFile then .errorResp ApiStatus.BAD_REQUEST
    else if ¬ routeCheckPathPermission userInfo p then .errorResp ApiStatus.FORBIDDEN
    else .callService [p]

/-- `DELETE /api/fs/remove`: missing path → 400; failed path-permission check
→ 403; otherwise `removeItem` is called. -/
def handleRemoveRoute (userInfo : UserInfo) (path : Option String) : RouteResult :=
  match path with
  | none => .errorResp ApiStatus.BAD_REQUEST
  | some p =>
    if ¬ routeCheckPathPermission userInfo p then .errorResp ApiStatus.FORBIDDEN
    else .callService [p]

/-- `POST /api/fs/rename`: both paths must pass the permission check before
`renameItem` is called. -/
def handleRenameRoute (userInfo : UserInfo) (oldPath newPath : Option String) : RouteResult :=
  match oldPath, newPath with
  | some o, some n =>
    if ¬ routeCheckPathPermission userInfo o ∨ ¬ routeCheckPathPermission userInfo n then
      .errorResp ApiStatus.FORBIDDEN
    else .callService [o, n]
  | _, _ => .errorResp ApiStatus.BAD_REQUEST

/-- `POST /api/fs/batch-remove`: for non-full-access users every path is
checked in a loop; the first failure returns 403 before `batchRemoveItems`. -/
def handleBatchRemoveRoute (userInfo : UserInfo) (paths : List String) : RouteResult :=
  if paths.isEmpty then .errorResp ApiStatus.BAD_REQUEST
  else if ¬ userInfo.hasFullAccess ∧ paths.any (fun p => ! routeCheckPathPermission userInfo p) then
    .errorResp ApiStatus.FORBIDDEN
  else .callService paths

/-- One item of a batch-copy request. -/
structure CopyItem where
  sourcePath : String
  targetPath : String
deriving DecidableEq, Repr

/-- `POST /api/fs/batch-copy`: for non-full-access users every source and
target path is checked before `batchCopyItems`. -/
def handleBatchCopyRoute (userInfo : UserInfo) (items : List CopyItem) : RouteResult :=
  if items.isEmpty then .errorResp ApiStatus.BAD_REQUEST
  else if ¬ userInfo.hasFullAccess ∧
      items.any (fun it =>
        (! routeCheckPathPermission userInfo it.sourcePath) ||
        (! routeCheckPathPermission userInfo it.targetPath)) then
    .errorResp ApiStatus.FORBIDDEN
  else .callService (items.map (fun it => it.sourcePath) ++ items.map (fun it => it.targetPath))

/-- `POST /api/fs/update`: missing path or content → 400; failed
path-permission check → 403; otherwise `updateFile` is called. -/
def handleUpdateRoute (userInfo : UserInfo) (path : Option String) (hasContent : Bool) : RouteResult :=
  match path with
  | none => .errorResp ApiStatus.BAD_REQUEST
  | some p =>
    if ¬ hasContent then .errorResp ApiStatus.BAD_REQUEST
    else if ¬ routeCheckPathPermission userInfo p then .errorResp ApiStatus.FORBIDDEN
    else .callService [p]

/-- The target path a presign request is checked against:
`path.endsWith("/") ? path + fileName : path + "/" + fileName`. -/
def presignTargetPath (path fileName : String) : String :=
  if path.endsWith "/" then path ++ fileName else path ++ "/" ++ fileName

/-- `POST /api/fs/presign`: missing path or file name → 400; the permission
check runs on the computed target path before any mount or S3 lookup. -/
def handlePresignRoute (userInfo : UserInfo) (path fileName : Option String) : RouteResult :=
  match path, fileName with
  | some p, some f =>
    if ¬ routeCheckPathPermission userInfo (presignTargetPath p f) then
      .errorResp ApiStatus.FORBIDDEN
    else .callService [presignTargetPath p f]
  | _, _ => .errorResp ApiStatus.BAD_REQUEST

/-! ## Storage-driver capabilities -/

/-- Storage-driver capability flags. -/
inductive Capability where
  | read | write | list | presign | multipart | copy | proxy
deriving DecidableEq, Repr

/-- Modelled from the spec: the S3 driver class (`S3StorageDriver`, not under
src/) declares its capability set; the spec §4.2 gives it as
`{read, write, list, presign, multipart, copy, proxy}`. -/
def s3DriverCapabilities : List Capability :=
  [.read, .write, .list, .presign, .multipart, .copy, .proxy]

/-- `driver.hasCapability(c)` for the S3 driver. -/
def s3HasCapability (c : Capability) : Bool :=
  s3DriverCapabilities.contains c

/-! ## URL commit capacity check (`POST /api/url/commit`) -/

/-- The slice of the pending file record used by the capacity check. -/
structure CommitFileRecord where
  id : String
  storage_path : String
deriving DecidableEq, Repr

/-- Result of the capacity-limit section of the commit handler: either the
commit is rejected with an HTTP status after deleting the listed S3 objects
and file records, or the handler proceeds to record the upload. -/
inductive CommitCapacityResult where
  | reject (status : Nat) (s3Deletes : List String) (recordDeletes : List String)
  | proceed
deriving DecidableEq, Repr

/-- The capacity check of `POST /api/url/commit`: when
`s3Config.total_storage_bytes` is non-null, current usage (excluding the
pending file) plus `parseInt(body.size || 0)` is compared against the cap;
on overflow the temporary S3 object is deleted, the file record is deleted,
and the request fails with `ApiStatus.BAD_REQUEST`. -/
def commitCapacityCheck (total_storage_bytes : Option Int) (currentUsage : Int)
    (bodySize : Option Int) (file : CommitFileRecord) : CommitCapacityResult :=
  match total_storage_bytes with
  | some cap =>
    let fileSize := bodySize.getD 0
    if currentUsage + fileSize > cap then
      .reject ApiStatus.BAD_REQUEST [file.storage_path] [file.id]
    else .proceed
  | none => .proceed

/-! ## WebDAV PUT upload-path selection (`handlePut`) -/

/-- The request headers `handlePut` inspects: the parsed `Content-Length`
header when present, and whether `Transfer-Encoding` includes `chunked`. -/
structure PutRequestHeaders where
  contentLength : Option Int
  transferEncodingChunked : Bool
deriving DecidableEq, Repr

/-- `declaredContentLength` as computed by `handlePut`: the header value when
present, `-1` (unknown) for chunked transfer without a length, else `0`. -/
def putDeclaredContentLength (h : PutRequestHeaders) : Int :=
  match h.contentLength with
  | some n => n
  | none => if h.transferEncodingChunked then -1 else 0

/-- `emptyBodyCheck` as computed by `handlePut`: a present `Content-Length`
equal to `0`, or the absence of both `Content-Length` and chunked encoding. -/
def putEmptyBodyCheck (h : PutRequestHeaders) : Bool :=
  match h.contentLength with
  | some n => n == 0
  | none => ! h.transferEncodingChunked

/-- The upload path `handlePut` commits to. `emptyFileDirect` and
`directUpload` call `fileSystem.uploadFile` with `useMultipart: false`
(a single direct upload); `streamingMultipart` runs `trueStreamingUpload`,
an S3 multipart upload through the SDK `Upload` class. -/
inductive PutDecision where
  | locked
  | emptyFileDirect
  | directUpload
  | streamingMultipart
deriving DecidableEq, Repr

/-- The control flow of `handlePut`: lock conflict → 423; empty body →
zero-byte direct upload; otherwise the `webdav_upload_mode` system setting
selects direct (`"direct"`, the default) or streaming multipart. -/
def handlePut (lockConflict : Bool) (h : PutRequestHeaders) (webdavUploadMode : String) : PutDecision :=
  if lockConflict then .locked
  else if putEmptyBodyCheck h then .emptyFileDirect
  else if webdavUploadMode = "direct" then .directUpload
  else .streamingMultipart

/-- Whether a PUT upload path opens an S3 multipart upload session. -/
def putDecisionOpensMultipart : PutDecision → Bool
  | .streamingMultipart => true
  | _ => false

/-! ## stat / getFileInfo (`S3FileOperations.getFileInfo`) -/

/-- The kind of preview/download URL attached to a file entry: a proxy URL
through the server, or an S3 presigned GET with an explicit `expiresIn`
(`none` means the configured default is used by `generatePresignedUrl`). -/
inductive UrlKind where
  | proxyUrl
  | presignedUrl (expiresIn : Option Int)
deriving DecidableEq, Repr

/-- The file entry `getFileInfo` builds from a successful HEAD or GET reply. -/
structure FileInfoEntry where
  isDirectory : Bool
  size : Int
  mimetype : String
  preview_url : Option UrlKind
  download_url : Option UrlKind
deriving DecidableEq, Repr

/-- Outcome of `getFileInfo`: an entry, a thrown `HTTPException` with its
status, or a raw storage error propagated to `handleFsError`. -/
inductive StatOutcome where
  | entry (e : FileInfoEntry)
  | httpError (status : Nat)
  | rawError (status : Nat) (name : String)
deriving DecidableEq, Repr

/-- URL selection shared by both branches of `getFileInfo` (the source
repeats the same code in the HEAD branch and the GET-fallback branch):
proxy URLs when `mount.web_proxy` is set and the driver has the proxy
capability, falling back to presigned URLs (with the configured default
expiry, `expiresIn = null`) when proxy-URL generation throws; presigned
URLs otherwise. -/
def selectUrls (web_proxy : Bool) (proxyGenOk : Bool) : UrlKind × UrlKind :=
  if web_proxy ∧ s3HasCapability .proxy then
    if proxyGenOk then (.proxyUrl, .proxyUrl)
    else (.presignedUrl none, .presignedUrl none)
  else (.presignedUrl none, .presignedUrl none)

/-- Entry construction shared by both branches of `getFileInfo`: a reply
content-type of `application/x-directory` classifies the entry as a
directory with size 0; URLs are attached only when the caller passed
`userType` and `userId`. -/
def buildFileInfo (meta : S3ObjectMeta) (hasUser web_proxy proxyGenOk : Bool) : FileInfoEntry :=
  let isDirectory := meta.contentType = some "application/x-directory"
  let urls := if hasUser then some (selectUrls web_proxy proxyGenOk) else none
  { isDirectory := isDirectory
    size := if isDirectory then 0 else meta.contentLength.getD 0
    mimetype := meta.contentType.getD "application/octet-stream"
    preview_url := urls.map (fun u => u.1)
    download_url := urls.map (fun u => u.2) }

/-- `getFileInfo`: HEAD first; on HEAD status 405 or 403 fall back to a GET
with `Range: bytes=0-0`; HEAD status 404 (or error name `NotFound`) maps to
`HTTPException(NOT_FOUND)`; other HEAD errors, and errors of the GET
fallback itself, propagate raw. -/
def getFileInfo (head getRange : S3Reply) (hasUser web_proxy proxyGenOk : Bool) : StatOutcome :=
  match head with
  | .ok meta => .entry (buildFileInfo meta hasUser web_proxy proxyGenOk)
  | .err status name =>
    if status = 405 ∨ status = 403 then
      match getRange with
      | .ok meta => .entry (buildFileInfo meta hasUser web_proxy proxyGenOk)
      | .err st nm => .rawError st nm
    else if status = 404 ∨ name = "NotFound" then .httpError ApiStatus.NOT_FOUND
    else .rawError status name

/-- The storage calls `getFileInfo` issues for a given object key. -/
def getFileInfoCalls (key : String) (head : S3Reply) : List S3Call :=
  .headObject key ::
    (match head with
     | .err status _ =>
       if status = 405 ∨ status = 403 then [.getObjectRange key "bytes=0-0"] else []
     | .ok _ => [])

/-! ## WebDAV MKCOL (`handleMkcol`) -/

/-- The request context `handleMkcol` inspects, with the surrounding
environment (mount resolution, S3 lookups) already evaluated:
`mountError` is the status of a failed `findMountPointByPath`,
`dirExists` is `checkDirectoryExists` on the collection's key, and
`parentMissing` is a failed parent-directory existence check. -/
structure MkcolCtx where
  mountError : Option Nat
  body : String
  s3ConfigExists : Bool
  dirExists : Bool
  parentMissing : Bool
deriving DecidableEq, Repr

/-- `handleMkcol`, returning the HTTP status: mount-resolution error first;
a non-empty request body → 415; missing storage config → 404; collection
already exists → 405; missing parent → 409; otherwise the directory-marker
object is created and the handler returns 201. -/
def handleMkcol (ctx : MkcolCtx) : Nat :=
  match ctx.mountError with
  | some status => status
  | none =>
    if 0 < ctx.body.length then 415
    else if ¬ ctx.s3ConfigExists then 404
    else if ctx.dirExists then 405
    else if ctx.parentMissing then 409
    else 201

/-! ## rename (`S3FileOperations.renameFile`) -/

/-- Outcome of `renameFile`: a thrown `HTTPException`, a raw storage error,
or success. -/
inductive RenameOutcome where
  | httpError (status : Nat)
  | rawError (status : Nat) (name : String)
  | renamed
deriving DecidableEq, Repr

/-- `renameFile`: HEAD the source (errors propagate raw); HEAD the target —
success means the target exists and the handler throws
`HTTPException(CONFLICT)` (the rethrow in the catch applies because an
`HTTPException` carries no `$metadata`), a non-404 error propagates raw, a
404 lets the rename continue with CopyObject then DeleteObject. -/
def renameFile (oldKey newKey : String) (sourceHead targetHead : S3Reply) :
    RenameOutcome × List S3Call :=
  match sourceHead with
  | .err status name => (.rawError status name, [.headObject oldKey])
  | .ok _ =>
    match targetHead with
    | .ok _ => (.httpError ApiStatus.CONFLICT, [.headObject oldKey, .headObject newKey])
    | .err status name =>
      if status ≠ 404 then (.rawError status name, [.headObject oldKey, .headObject newKey])
      else
        (.renamed,
         [.headObject oldKey, .headObject newKey,
          .copyObject oldKey newKey, .deleteObject oldKey])

/-! ## update-inline (`S3FileOperations.updateFile`) -/

/-- The content passed to `updateFile`, carrying only the quantity the size
check reads: `content.length` for a string, `content.byteLength` for an
`ArrayBuffer`. -/
inductive UpdateContent where
  | str (length : Nat)
  | buf (byteLength : Nat)
deriving DecidableEq, Repr

/-- The `MAX_FILE_SIZE` constant of `updateFile` (10 MiB). -/
def MAX_FILE_SIZE : Nat := 10 * 1024 * 1024

/-- Outcome of `updateFile`: a thrown `HTTPException`, or a successful write
with the content type that was sent. -/
inductive UpdateOutcome where
  | httpError (status : Nat)
  | updated (contentType : String)
deriving DecidableEq, Repr

/-- JavaScript `a || b` for the `fileName || s3SubPath` argument: an absent
or empty string falls back to the default. -/
def jsStringOr (a : Option String) (b : String) : String :=
  match a with
  | some s => if s = "" then b else s
  | none => b

/-- `updateFile`: content larger than `MAX_FILE_SIZE` →
`HTTPException(BAD_REQUEST)` with no storage call; otherwise the MIME type
is inferred from the file name (`getMimeTypeFromFilename`, passed here as
`mime`), the original metadata is probed with a HEAD, and the object is
written with `PutObject`. -/
def updateFile (mime : String → String) (s3SubPath : String)
    (content : UpdateContent) (fileName : Option String) :
    UpdateOutcome × List S3Call :=
  let tooBig : Bool :=
    match content with
    | .str length => decide (MAX_FILE_SIZE < length)
    | .buf byteLength => decide (MAX_FILE_SIZE < byteLength)
  if tooBig then (.httpError ApiStatus.BAD_REQUEST, [])
  else
    let contentType := mime (jsStringOr fileName s3SubPath)
    (.updated contentType, [.headObject s3SubPath, .putObject s3SubPath contentType])

/-! ## Basic authentication (`AuthService.validateBasicAuth`)

The handler decodes the Base64 token and splits it at the first colon; the
model takes the resulting username and password directly. -/

/-- An administrator row as returned by `adminRepository.findByUsername`;
`password` is the stored (hashed) credential checked by `verifyPassword`. -/
structure AdminRecord where
  id : String
  username : String
  password : String
deriving DecidableEq, Repr

/-- An API-key row as returned by `apiKeyRepository.findByKey`. `expired`
is the verdict of `checkAndDeleteExpiredApiKey` for this record. -/
structure ApiKeyRecord where
  id : String
  name : String
  key : String
  basic_path : Option String
  text_permission : Int
  file_permission : Int
  mount_permission : Int
  expired : Bool
deriving DecidableEq, Repr

/-- The database and crypto environment `validateBasicAuth` consults. -/
structure AuthEnv where
  admins : List AdminRecord
  apiKeys : List ApiKeyRecord
  verifyPassword : String → String → Bool

/-- `adminRepository.findByUsername`. -/
def findAdminByUsername (env : AuthEnv) (username : String) : Option AdminRecord :=
  env.admins.find? (fun a => a.username == username)

/-- `apiKeyRepository.findByKey`. -/
def findApiKeyByKey (env : AuthEnv) (key : String) : Option ApiKeyRecord :=
  env.apiKeys.find? (fun k => k.key == key)

/-- The permission map carried by an `AuthResult`. -/
structure Permissions where
  text : Bool
  file : Bool
  mount : Bool
  admin : Bool
deriving DecidableEq, Repr

/-- The `AuthResult` object: `isAdminFlag` is the `_isAdmin` field set by the
Basic admin branch. -/
structure AuthResult where
  isAuthenticated : Bool
  authType : String
  userId : Option String
  permissions : Permissions
  basicPath : String
  isAdminFlag : Bool
deriving DecidableEq, Repr

/-- `AuthResult.isAdmin()`: true for the `admin` auth type or when the
`_isAdmin` flag is set. -/
def AuthResult.isAdmin (r : AuthResult) : Bool :=
  r.authType == "admin" || r.isAdminFlag

/-- The default `new AuthResult()`: unauthenticated, no permissions. -/
def emptyAuthResult : AuthResult :=
  ⟨false, "none", none, ⟨false, false, false, false⟩, "/", false⟩

/-- `validateBasicAuth`: empty username or password fails; an admin account
matching the username whose stored credential verifies the password yields a
Basic admin result (all permissions, `basicPath = "/"`, `_isAdmin` set);
otherwise the username is looked up as an API key, which must carry the
mount permission, equal the password, and be unexpired to yield an API-key
result with the key's permissions and basic path. -/
def validateBasicAuth (env : AuthEnv) (username password : String) : AuthResult :=
  if username = "" ∨ password = "" then emptyAuthResult
  else
    let adminAttempt : Option AuthResult :=
      match findAdminByUsername env username with
      | some admin =>
        if env.verifyPassword password admin.password then
          some ⟨true, "basic", some admin.id, ⟨true, true, true, true⟩, "/", true⟩
        else none
      | none => none
    match adminAttempt with
    | some r => r
    | none =>
      match findApiKeyByKey env username with
      | some keyRecord =>
        if keyRecord.mount_permission == 1 then
          if username = password then
            if keyRecord.expired then emptyAuthResult
            else
              ⟨true, "apikey", some keyRecord.id,
               ⟨keyRecord.text_permission == 1, keyRecord.file_permission == 1,
                keyRecord.mount_permission == 1, false⟩,
               keyRecord.basic_path.getD "/", false⟩
          else emptyAuthResult
        else emptyAuthResult
      | none => emptyAuthResult

/-! ## Claim theorems -/

/-- C1: every path-guarded fs operation (mkdir, upload, remove, rename,
batch-remove, batch-copy, update, presign) refuses an API-key principal
with HTTP 403 before any storage call whenever the principal's basic path
is not a prefix of the operation's virtual path under the path-permission
predicate; admin principals pass the path check for every path. -/
theorem fsRoutes_guard_refuses_outside_basicPath :
    (∀ (A p : String), checkPathPermissionForOperation A p = false →
      handleMkdirRoute (apiKeyUserInfo A) (some p) = .errorResp ApiStatus.FORBIDDEN
    ∧ handleUploadRoute (apiKeyUserInfo A) true (some p) = .errorResp ApiStatus.FORBIDDEN
    ∧ handleRemoveRoute (apiKeyUserInfo A) (some p) = .errorResp ApiStatus.FORBIDDEN
    ∧ (∀ q, handleRenameRoute (apiKeyUserInfo A) (some p) (some q) = .errorResp ApiStatus.FORBIDDEN
          ∧ handleRenameRoute (apiKeyUserInfo A) (some q) (some p) = .errorResp ApiStatus.FORBIDDEN)
    ∧ (∀ paths, p ∈ paths →
          handleBatchRemoveRoute (apiKeyUserInfo A) paths = .errorResp ApiStatus.FORBIDDEN)
    ∧ (∀ (items : List CopyItem) (it : CopyItem), it ∈ items →
          it.sourcePath = p ∨ it.targetPath = p →
          handleBatchCopyRoute (apiKeyUserInfo A) items = .errorResp ApiStatus.FORBIDDEN)
    ∧ handleUpdateRoute (apiKeyUserInfo A) (some p) true = .errorResp ApiStatus.FORBIDDEN
    ∧ (∀ pa f, presignTargetPath pa f = p →
          handlePresignRoute (apiKeyUserInfo A) (some pa) (some f) = .errorResp ApiStatus.FORBIDDEN))
  ∧ (∀ p, routeCheckPathPermission adminUserInfo p = true) := by
  constructor
  · intro A p h
    have hr : routeCheckPathPermission (apiKeyUserInfo A) p = false := by
      simp [routeCheckPathPermission, apiKeyUserInfo, h]
    have hFull : (apiKeyUserInfo A).hasFullAccess = false := rfl
    refine ⟨?_, ?_, ?_, ?_, ?_, ?_, ?_, ?_⟩
    · simp [handleMkdirRoute, hr]
    · simp [handleUploadRoute, hr]
    · simp [handleRemoveRoute, hr]
    · intro q
      constructor <;> simp [handleRenameRoute, hr]
    · intro paths hp
      have hne : paths.isEmpty = false := by
        cases paths with
        | nil => cases hp
        | cons a t => rfl
      have hany : paths.any (fun q => ! routeCheckPathPermission (apiKeyUserInfo A) q) = true := by
        rw [List.any_eq_true]
        exact ⟨p, hp, by simp [hr]⟩
      simp [handleBatchRemoveRoute, hne, hFull, hany]
    · intro items it hit hor
      have hne : items.isEmpty = false := by
        cases items with
        | nil => cases hit
        | cons a t => rfl
      have hany : items.any (fun it =>
          (! routeCheckPathPermission (apiKeyUserInfo A) it.sourcePath) ||
          (! routeCheckPathPermission (apiKeyUserInfo A) it.targetPath)) = true := by
        rw [List.any_eq_true]
        refine ⟨it, hit, ?_⟩
        cases hor with
        | inl hs => simp [hs, hr]
        | inr ht => simp [ht, hr]
      simp [handleBatchCopyRoute, hne, hFull, hany]
    · simp [handleUpdateRoute, hr]
    · intro pa f htarget
      simp [handlePresignRoute, htarget, hr]
  · intro p
    simp [routeCheckPathPermission, adminUserInfo]

/-- C1 witness: a principal with basic path `/team-a/` is refused on
`/team-b/` across the guarded operations, and the admin check passes. -/
theorem fsRoutes_guard_refuses_outside_basicPath_witness :
    handleMkdirRoute (apiKeyUserInfo "/team-a/") (some "/team-b/") = .errorResp ApiStatus.FORBIDDEN
  ∧ handleBatchRemoveRoute (apiKeyUserInfo "/team-a/") ["/team-b/"] = .errorResp ApiStatus.FORBIDDEN
  ∧ routeCheckPathPermission adminUserInfo "/team-b/" = true :=
  ⟨(fsRoutes_guard_refuses_outside_basicPath.1 "/team-a/" "/team-b/" (by decide)).1,
   ((fsRoutes_guard_refuses_outside_basicPath.1 "/team-a/" "/team-b/" (by decide)).2.2.2.2.1
     ["/team-b/"] (by simp)),
   fsRoutes_guard_refuses_outside_basicPath.2 "/team-b/"⟩

/-- C2 counterexample: with `total_storage_bytes = 100`, current usage 40 and
a committed size of 70, the commit handler rejects with status 400
(`ApiStatus.BAD_REQUEST`), not 507, while deleting the object and record. -/
theorem urlCommit_capacity_counterexample :
    commitCapacityCheck (some 100) 40 (some 70) ⟨"file1", "obj/key1"⟩ =
      .reject 400 ["obj/key1"] ["file1"]
  ∧ (400 : Nat) ≠ 507 := by
  exact ⟨rfl, by decide⟩

/-- C2 (amended): when `total_storage_bytes` is non-null and current usage
plus the committed size exceeds it, the commit is rejected with HTTP 400
(`ApiStatus.BAD_REQUEST`), the uploaded object is deleted from the bucket,
and the file record is removed. -/
theorem urlCommit_capacity_overflow_rejected :
    ∀ (cap currentUsage : Int) (bodySize : Option Int) (file : CommitFileRecord),
      cap < currentUsage + bodySize.getD 0 →
      commitCapacityCheck (some cap) currentUsage bodySize file =
        .reject ApiStatus.BAD_REQUEST [file.storage_path] [file.id] := by
  intro cap u bs f h
  simp only [commitCapacityCheck]
  rw [if_pos h]

/-- C2 witness: the overflow rejection at the spec's concrete capacity
scenario. -/
theorem urlCommit_capacity_overflow_rejected_witness :
    commitCapacityCheck (some 100) 40 (some 70) ⟨"file1", "obj/key1"⟩ =
      .reject ApiStatus.BAD_REQUEST ["obj/key1"] ["file1"] :=
  urlCommit_capacity_overflow_rejected 100 40 (some 70) ⟨"file1", "obj/key1"⟩ (by decide)

/-- C3 counterexample: a chunked PUT without Content-Length under the
default `webdav_upload_mode = "direct"` takes the buffered direct-upload
branch and opens no multipart session. -/
theorem webdavPut_chunked_counterexample :
    handlePut false ⟨none, true⟩ "direct" = .directUpload
  ∧ putDecisionOpensMultipart (handlePut false ⟨none, true⟩ "direct") = false :=
  ⟨rfl, rfl⟩

/-- C3 (amended): a WebDAV PUT carrying `Transfer-Encoding: chunked` and no
Content-Length uses the streaming multipart pipeline whenever the
`webdav_upload_mode` setting is not `direct`; under `direct` (the default)
the body is buffered and uploaded with a single direct upload. -/
theorem webdavPut_chunked_mode_selection :
    ∀ (h : PutRequestHeaders) (mode : String),
      h.contentLength = none → h.transferEncodingChunked = true →
      (mode ≠ "direct" → handlePut false h mode = .streamingMultipart)
    ∧ (mode = "direct" → handlePut false h mode = .directUpload) := by
  intro h mode h1 h2
  have he : putEmptyBodyCheck h = false := by
    simp [putEmptyBodyCheck, h1, h2]
  constructor
  · intro h3
    simp [handlePut, he, h3]
  · intro h3
    simp [handlePut, he, h3]

/-- C3 witness: the amended selection at concrete headers and modes. -/
theorem webdavPut_chunked_mode_selection_witness :
    handlePut false ⟨none, true⟩ "multipart" = .streamingMultipart
  ∧ handlePut false ⟨none, true⟩ "direct" = .directUpload :=
  ⟨(webdavPut_chunked_mode_selection ⟨none, true⟩ "multipart" rfl rfl).1 (by decide),
   (webdavPut_chunked_mode_selection ⟨none, true⟩ "direct" rfl rfl).2 rfl⟩

/-- C4: a WebDAV PUT with `Content-Length: 0` takes the zero-byte
direct-upload branch (a single PutObject via `uploadFile` with
`useMultipart: false`) and never opens a multipart session, for every
transfer encoding and upload-mode setting. -/
theorem webdavPut_emptyBody_direct :
    ∀ (chunked lockConflict : Bool) (mode : String),
      handlePut false ⟨some 0, chunked⟩ mode = .emptyFileDirect
    ∧ putDecisionOpensMultipart (handlePut lockConflict ⟨some 0, chunked⟩ mode) = false := by
  intro ch lc mode
  constructor
  · simp [handlePut, putEmptyBodyCheck]
  · cases lc <;> simp [handlePut, putEmptyBodyCheck, putDecisionOpensMultipart]

/-- C5: `getFileInfo` issues HeadObject first; a HEAD failure with status
405 or 403 falls back to GetObject with `Range: bytes=0-0`; in either
branch a content-type of `application/x-directory` classifies the entry as
a directory of size 0; and a HEAD 404 yields the notFound error. -/
theorem getFileInfo_head_fallback_and_notFound :
    ∀ (key : String) (head getRange : S3Reply) (hasUser webProxy proxyGenOk : Bool),
      (getFileInfoCalls key head).head? = some (.headObject key)
    ∧ (∀ st nm, head = .err st nm → st = 405 ∨ st = 403 →
        getFileInfoCalls key head = [.headObject key, .getObjectRange key "bytes=0-0"])
    ∧ (∀ m, head = .ok m →
        getFileInfoCalls key head = [.headObject key]
      ∧ getFileInfo head getRange hasUser webProxy proxyGenOk =
          .entry (buildFileInfo m hasUser webProxy proxyGenOk))
    ∧ (∀ m : S3ObjectMeta, m.contentType = some "application/x-directory" →
        (buildFileInfo m hasUser webProxy proxyGenOk).isDirectory = true
      ∧ (buildFileInfo m hasUser webProxy proxyGenOk).size = 0)
    ∧ (∀ st nm m, head = .err st nm → st = 405 ∨ st = 403 → getRange = .ok m →
        getFileInfo head getRange hasUser webProxy proxyGenOk =
          .entry (buildFileInfo m hasUser webProxy proxyGenOk))
    ∧ (∀ nm, head = .err 404 nm →
        getFileInfo head getRange hasUser webProxy proxyGenOk = .httpError ApiStatus.NOT_FOUND) := by
  intro key head getRange hasUser webProxy proxyGenOk
  refine ⟨?_, ?_, ?_, ?_, ?_, ?_⟩
  · cases head with
    | ok m => simp [getFileInfoCalls]
    | err st nm => simp [getFileInfoCalls]
  · intro st nm hh hst
    subst hh
    simp [getFileInfoCalls, hst]
  · intro m hh
    subst hh
    exact ⟨rfl, rfl⟩
  · intro m hct
    constructor
    · simp [buildFileInfo, hct]
    · simp [buildFileInfo, hct]
  · intro st nm m hh hst hg
    subst hh
    subst hg
    simp [getFileInfo, hst]
  · intro nm hh
    subst hh
    simp [getFileInfo, ApiStatus.NOT_FOUND]

/-- C5 witness: the HEAD 404 case and the 405 fallback case at concrete
replies. -/
theorem getFileInfo_head_fallback_and_notFound_witness :
    getFileInfo (.err 404 "NotFound") (.ok ⟨none, none, none⟩) true true true =
      .httpError ApiStatus.NOT_FOUND
  ∧ getFileInfoCalls "docs/a" (.err 405 "MethodNotAllowed") =
      [.headObject "docs/a", .getObjectRange "docs/a" "bytes=0-0"]
  ∧ (buildFileInfo ⟨some "application/x-directory", some 7, none⟩ true false true).isDirectory = true :=
  ⟨(getFileInfo_head_fallback_and_notFound "docs/a" (.err 404 "NotFound")
      (.ok ⟨none, none, none⟩) true true true).2.2.2.2.2 "NotFound" rfl,
   (getFileInfo_head_fallback_and_notFound "docs/a" (.err 405 "MethodNotAllowed")
      (.ok ⟨none, none, none⟩) true true true).2.1 405 "MethodNotAllowed" rfl (Or.inl rfl),
   ((getFileInfo_head_fallback_and_notFound "docs/a" (.err 405 "MethodNotAllowed")
      (.ok ⟨none, none, none⟩) true false true).2.2.2.1
      ⟨some "application/x-directory", some 7, none⟩ rfl).1⟩

/-- C6: the MKCOL handler (once the mount is resolved) returns 415 for a
non-empty request body, 405 when the target collection already exists, and
201 on successful creation of the directory marker. -/
theorem mkcol_status_mapping :
    ∀ ctx : MkcolCtx, ctx.mountError = none →
      (0 < ctx.body.length → handleMkcol ctx = 415)
    ∧ (ctx.body.length = 0 → ctx.s3ConfigExists = true → ctx.dirExists = true →
        handleMkcol ctx = 405)
    ∧ (ctx.body.length = 0 → ctx.s3ConfigExists = true → ctx.dirExists = false →
        ctx.parentMissing = false → handleMkcol ctx = 201) := by
  intro ctx hm
  refine ⟨?_, ?_, ?_⟩
  · intro hb
    simp [handleMkcol, hm, hb]
  · intro hb hc hd
    simp [handleMkcol, hm, hb, hc, hd]
  · intro hb hc hd hp
    simp [handleMkcol, hm, hb, hc, hd, hp]

/-- C6 witness: the three statuses at concrete contexts. -/
theorem mkcol_status_mapping_witness :
    handleMkcol ⟨none, "x", true, false, false⟩ = 415
  ∧ handleMkcol ⟨none, "", true, true, false⟩ = 405
  ∧ handleMkcol ⟨none, "", true, false, false⟩ = 201 :=
  ⟨(mkcol_status_mapping ⟨none, "x", true, false, false⟩ rfl).1 (by decide),
   (mkcol_status_mapping ⟨none, "", true, true, false⟩ rfl).2.1 rfl rfl rfl,
   (mkcol_status_mapping ⟨none, "", true, false, false⟩ rfl).2.2 rfl rfl rfl rfl⟩

/-- C7: for every entry decorated by `getFileInfo` (under normal operation,
i.e. proxy-URL generation succeeds), a mount with `web_proxy` set yields
proxy URLs for both preview and download, and otherwise both URLs are S3
presigned GETs with the configured default expiry (`expiresIn = null`). -/
theorem statUrls_proxy_vs_presigned :
    ∀ (head getRange : S3Reply) (webProxy proxyGenOk : Bool) (e : FileInfoEntry),
      proxyGenOk = true →
      getFileInfo head getRange true webProxy proxyGenOk = .entry e →
      (webProxy = true → e.preview_url = some .proxyUrl ∧ e.download_url = some .proxyUrl)
    ∧ (webProxy = false → e.preview_url = some (.presignedUrl none)
        ∧ e.download_url = some (.presignedUrl none)) := by
  intro head getRange webProxy proxyGenOk e hpg he
  subst hpg
  have hsel : ∀ m : S3ObjectMeta, e = buildFileInfo m true webProxy true →
      (webProxy = true → e.preview_url = some .proxyUrl ∧ e.download_url = some .proxyUrl)
    ∧ (webProxy = false → e.preview_url = some (.presignedUrl none)
        ∧ e.download_url = some (.presignedUrl none)) := by
    intro m hm
    subst hm
    cases webProxy with
    | false =>
      constructor
      · intro h
        cases h
      · intro _
        exact ⟨rfl, rfl⟩
    | true =>
      constructor
      · intro _
        exact ⟨rfl, rfl⟩
      · intro h
        cases h
  cases head with
  | ok m =>
    simp only [getFileInfo] at he
    exact hsel m (by injection he with h; exact h.symm)
  | err st nm =>
    simp only [getFileInfo] at he
    by_cases hst : st = 405 ∨ st = 403
    · rw [if_pos hst] at he
      cases getRange with
      | ok m => exact hsel m (by injection he with h; exact h.symm)
      | err st2 nm2 => cases he
    · rw [if_neg hst] at he
      by_cases h4 : st = 404 ∨ nm = "NotFound"
      · rw [if_pos h4] at he
        cases he
      · rw [if_neg h4] at he
        cases he

/-- C7 witness: proxy URLs for a `web_proxy` mount and presigned URLs
otherwise, at concrete replies. -/
theorem statUrls_proxy_vs_presigned_witness :
    ((buildFileInfo ⟨some "text/plain", some 3, none⟩ true true true).preview_url = some .proxyUrl)
  ∧ ((buildFileInfo ⟨some "text/plain", some 3, none⟩ true false true).preview_url =
      some (.presignedUrl none)) :=
  ⟨((statUrls_proxy_vs_presigned (.ok ⟨some "text/plain", some 3, none⟩)
      (.ok ⟨none, none, none⟩) true true
      (buildFileInfo ⟨some "text/plain", some 3, none⟩ true true true) rfl rfl).1 rfl).1,
   ((statUrls_proxy_vs_presigned (.ok ⟨some "text/plain", some 3, none⟩)
      (.ok ⟨none, none, none⟩) false true
      (buildFileInfo ⟨some "text/plain", some 3, none⟩ true false true) rfl rfl).2 rfl).1⟩

/-- C8: `renameFile` HEADs the source first; an existing object at the new
key fails with `HTTPException(CONFLICT)` (HTTP 409) and no mutation is
issued; otherwise the handler performs CopyObject to the new key and only
then DeleteObject of the old key. -/
theorem renameFile_conflict_and_copy_before_delete :
    ∀ (oldKey newKey : String) (sourceHead targetHead : S3Reply),
      (renameFile oldKey newKey sourceHead targetHead).2.head? = some (.headObject oldKey)
    ∧ (∀ sm tm, sourceHead = .ok sm → targetHead = .ok tm →
        renameFile oldKey newKey sourceHead targetHead =
          (.httpError ApiStatus.CONFLICT, [.headObject oldKey, .headObject newKey]))
    ∧ (∀ sm nm, sourceHead = .ok sm → targetHead = .err 404 nm →
        renameFile oldKey newKey sourceHead targetHead =
          (.renamed, [.headObject oldKey, .headObject newKey,
                      .copyObject oldKey newKey, .deleteObject oldKey])) := by
  intro oldKey newKey sourceHead targetHead
  refine ⟨?_, ?_, ?_⟩
  · cases sourceHead with
    | err st nm => simp [renameFile]
    | ok sm =>
      cases targetHead with
      | ok tm => simp [renameFile]
      | err st nm =>
        by_cases h : st = 404
        · simp [renameFile, h]
        · simp [renameFile, h]
  · intro sm tm hs ht
    subst hs
    subst ht
    rfl
  · intro sm nm hs ht
    subst hs
    subst ht
    simp [renameFile]

/-- C8 witness: the conflict and success traces at concrete replies. -/
theorem renameFile_conflict_and_copy_before_delete_witness :
    renameFile "a.txt" "b.txt" (.ok ⟨none, some 3, none⟩) (.ok ⟨none, some 1, none⟩) =
      (.httpError ApiStatus.CONFLICT, [.headObject "a.txt", .headObject "b.txt"])
  ∧ renameFile "a.txt" "b.txt" (.ok ⟨none, some 3, none⟩) (.err 404 "NotFound") =
      (.renamed, [.headObject "a.txt", .headObject "b.txt",
                  .copyObject "a.txt" "b.txt", .deleteObject "a.txt"]) :=
  ⟨(renameFile_conflict_and_copy_before_delete "a.txt" "b.txt"
      (.ok ⟨none, some 3, none⟩) (.ok ⟨none, some 1, none⟩)).2.1
      ⟨none, some 3, none⟩ ⟨none, some 1, none⟩ rfl rfl,
   (renameFile_conflict_and_copy_before_delete "a.txt" "b.txt"
      (.ok ⟨none, some 3, none⟩) (.err 404 "NotFound")).2.2
      ⟨none, some 3, none⟩ "NotFound" rfl rfl⟩

/-- An API key that is valid and unexpired but lacks the mount permission. -/
def keyWithoutMount : ApiKeyRecord :=
  ⟨"key-id-1", "key-1", "k", some "/data/", 1, 1, 0, false⟩

/-- An environment with no admins and only `keyWithoutMount`. -/
def envWithoutMount : AuthEnv :=
  ⟨[], [keyWithoutMount], fun _ _ => false⟩

/-- C9 counterexample: Basic credentials whose username and password both
equal a valid, unexpired API key are rejected when the key lacks the mount
permission — the claim's API-key half omits this requirement. -/
theorem validateBasicAuth_counterexample :
    findApiKeyByKey envWithoutMount "k" = some keyWithoutMount
  ∧ keyWithoutMount.expired = false
  ∧ (validateBasicAuth envWithoutMount "k" "k").isAuthenticated = false :=
  ⟨rfl, rfl, rfl⟩

/-- C9 (amended): for Basic credentials, a username naming an admin account
whose stored credential verifies the password yields an admin principal
with full permissions and basic path `/`; identical username and password
equal to a valid, unexpired API key **that carries the mount permission**
(when the credentials do not verify as an admin) yield an apiKey principal
with that key's permissions and basic path. -/
theorem validateBasicAuth_admin_and_apiKey :
    (∀ (env : AuthEnv) (u p : String) (a : AdminRecord),
      u ≠ "" → p ≠ "" →
      findAdminByUsername env u = some a →
      env.verifyPassword p a.password = true →
      validateBasicAuth env u p = ⟨true, "basic", some a.id, ⟨true, true, true, true⟩, "/", true⟩
    ∧ (validateBasicAuth env u p).isAdmin = true)
  ∧ (∀ (env : AuthEnv) (u : String) (k : ApiKeyRecord),
      u ≠ "" →
      (∀ a, findAdminByUsername env u = some a → env.verifyPassword u a.password = false) →
      findApiKeyByKey env u = some k →
      k.mount_permission = 1 →
      k.expired = false →
      validateBasicAuth env u u =
        ⟨true, "apikey", some k.id,
         ⟨k.text_permission == 1, k.file_permission == 1, true, false⟩,
         k.basic_path.getD "/", false⟩) := by
  constructor
  · intro env u p a hu hp hfind hver
    have hres : validateBasicAuth env u p =
        ⟨true, "basic", some a.id, ⟨true, true, true, true⟩, "/", true⟩ := by
      simp [validateBasicAuth, hu, hp, hfind, hver]
    exact ⟨hres, by rw [hres]; rfl⟩
  · intro env u k hu hadmin hfind hmount hexp
    have hne : ¬ (u = "" ∨ u = "") := by
      intro h
      cases h with
      | inl h => exact hu h
      | inr h => exact hu h
    simp only [validateBasicAuth, if_neg hne]
    cases hfa : findAdminByUsername env u with
    | none =>
      simp [hfa, hfind, hmount, hexp]
    | some a =>
      have hver := hadmin a hfa
      simp [hfa, hver, hfind, hmount, hexp]

/-- An admin account and a mount-capable API key for the C9 witness;
`verifyPassword` accepts exactly the pair `("pw", "hash1")`. -/
def witnessAuthEnv : AuthEnv :=
  ⟨[⟨"admin-1", "root", "hash1"⟩],
   [⟨"key-id-2", "key-2", "kk", some "/data/", 1, 0, 1, false⟩],
   fun p h => p == "pw" && h == "hash1"⟩

/-- C9 witness: the admin branch on `root:pw` and the API-key branch on
`kk:kk` in the concrete environment. -/
theorem validateBasicAuth_admin_and_apiKey_witness :
    validateBasicAuth witnessAuthEnv "root" "pw" =
      ⟨true, "basic", some "admin-1", ⟨true, true, true, true⟩, "/", true⟩
  ∧ validateBasicAuth witnessAuthEnv "kk" "kk" =
      ⟨true, "apikey", some "key-id-2", ⟨true, false, true, false⟩, "/data/", false⟩ :=
  ⟨(validateBasicAuth_admin_and_apiKey.1 witnessAuthEnv "root" "pw"
      ⟨"admin-1", "root", "hash1"⟩ (by decide) (by decide) rfl rfl).1,
   validateBasicAuth_admin_and_apiKey.2 witnessAuthEnv "kk"
      ⟨"key-id-2", "key-2", "kk", some "/data/", 1, 0, 1, false⟩ (by decide)
      (fun a ha => by
        rw [show findAdminByUsername witnessAuthEnv "kk" = none from rfl] at ha
        exact Option.noConfusion ha)
      rfl rfl rfl⟩

/-- C10: `updateFile` rejects content larger than 10 MiB (string length for
strings, byteLength for ArrayBuffers) with HTTP 400 before any S3 call, and
for content at or below the limit writes the object with the MIME type
inferred from the file name. -/
theorem updateFile_size_limit_and_mime :
    ∀ (mime : String → String) (key : String) (fileName : Option String) (n : Nat),
      (MAX_FILE_SIZE < n →
          updateFile mime key (.str n) fileName = (.httpError ApiStatus.BAD_REQUEST, [])
        ∧ updateFile mime key (.buf n) fileName = (.httpError ApiStatus.BAD_REQUEST, []))
    ∧ (n ≤ MAX_FILE_SIZE →
          updateFile mime key (.str n) fileName =
            (.updated (mime (jsStringOr fileName key)),
             [.headObject key, .putObject key (mime (jsStringOr fileName key))])
        ∧ updateFile mime key (.buf n) fileName =
            (.updated (mime (jsStringOr fileName key)),
             [.headObject key, .putObject key (mime (jsStringOr fileName key))])) := by
  intro mime key fileName n
  constructor
  · intro h
    constructor <;> simp [updateFile, h]
  · intro h
    have h2 : ¬ MAX_FILE_SIZE < n := Nat.not_lt.mpr h
    constructor <;> simp [updateFile, h2]

/-- C10 witness: the 400 rejection just above the limit and a successful
write just below it. -/
theorem updateFile_size_limit_and_mime_witness :
    updateFile (fun _ => "text/plain") "docs/a.txt" (.str (10 * 1024 * 1024 + 1)) (some "a.txt") =
      (.httpError ApiStatus.BAD_REQUEST, [])
  ∧ updateFile (fun _ => "text/plain") "docs/a.txt" (.str 5) (some "a.txt") =
      (.updated "text/plain", [.headObject "docs/a.txt", .putObject "docs/a.txt" "text/plain"]) :=
  ⟨((updateFile_size_limit_and_mime (fun _ => "text/plain") "docs/a.txt" (some "a.txt")
      (10 * 1024 * 1024 + 1)).1 (by decide)).1,
   ((updateFile_size_limit_and_mime (fun _ => "text/plain") "docs/a.txt" (some "a.txt") 5).2
      (by decide)).1⟩
